import Mathlib

/-!
Shallow embedding of the mrujs plugin-lifecycle core (`src/mrujs.ts`).

JavaScript objects with string-keyed fields are modelled as association
lists (first-match lookup, in-place update keeping key order, append for a
fresh key, mirroring JS property-assignment semantics).  The single ambient
instance (`window.mrujs`) is modelled by explicit state passing: every
lifecycle function takes the current `MrujsState` and returns the new state
together with the trace of plugin-hook invocations it performed (`Ev`
events record which plugin hook fired, in order).  Optional plugin hooks
(`plugin.initialize?.()` etc.) fire only when the plugin has the hook, so a
plugin object is modelled by an id plus one presence flag per hook.

DOM-only side effects (`reEnableDisabledElements`, the `pageshow`
listener, `window.setTimeout`) have no observable effect on the embedded
state; the deferred mutation dispatch is modelled by returning, for each
mutation record, the per-record deferred task as the list of
(plugin id, node batch) deliveries it performs.

External collaborators absent from `src/` (the plugin factories imported at
the top of `mrujs.ts`, `BASE_SELECTORS`, `BASE_ACCEPT_HEADERS`, and the
`Confirm()` object's `callbacks` array) are modelled from the spec: each
factory produces "a capability object with optional hooks" (spec section 1),
supplied here as the `CoreFactories` record; the two base configuration maps
are parameters of the constructor; the confirm-callback registry is "an
ordered sequence of callback functions, appending is the only supported
mutation" (spec section 3), held as `confirmCallbacks`.
-/

/-- DOM nodes are opaque; identity is all the dispatcher uses. -/
abbrev DomNode := Nat

/-- A selector-registry entry, `{ selector: string, exclude?: string }`.
Both fields are `Option` because at the JS runtime level either property
may be absent (`undefined`); `appendToQuerySelector` string-concatenates
whatever is there. -/
structure SelectorEntry where
  selector : Option String
  exclude : Option String
deriving DecidableEq, Repr

/-- A JS object mapping semantic names to selector entries. -/
abbrev QuerySelectors := List (String × SelectorEntry)

/-- A JS object with string values (mime map). -/
abbrev ObjStr := List (String × String)

/-- JS property read `obj[k]` (first match). -/
def objGet : ObjStr → String → Option String
  | [], _ => none
  | (k0, v0) :: rest, k => if k0 = k then some v0 else objGet rest k

/-- JS property write `obj[k] = v`: update in place keeping position if the
key exists, else append. -/
def objSet : ObjStr → String → String → ObjStr
  | [], k, v => [(k, v)]
  | (k0, v0) :: rest, k, v =>
    if k0 = k then (k0, v) :: rest else (k0, v0) :: objSet rest k v

/-- JS spread merge `\x7b...a, ...b\x7d`: every key of `b` overrides or
extends `a`. -/
def spreadMerge (a b : ObjStr) : ObjStr :=
  b.foldl (fun acc kv => objSet acc kv.1 kv.2) a

/-- Selector-map read `querySelectors[key]` (first match). -/
def qsGet : QuerySelectors → String → Option SelectorEntry
  | [], _ => none
  | (k0, v0) :: rest, k => if k0 = k then some v0 else qsGet rest k

/-- `Object.keys(querySelectors).includes(key)`. -/
def qsHasKey (qs : QuerySelectors) (key : String) : Bool :=
  (qs.map Prod.fst).contains key

/-- In-place mutation of the entry stored at `key`. -/
def qsModify : QuerySelectors → String → (SelectorEntry → SelectorEntry) → QuerySelectors
  | [], _, _ => []
  | (k0, v0) :: rest, k, f =>
    if k0 = k then (k0, f v0) :: rest else (k0, v0) :: qsModify rest k f

/-- JS string coercion applied by `+=` to the left operand: the value
`undefined` prints as the string `undefined`. -/
def jsCoerce : Option String → String
  | none => "undefined"
  | some s => s

/-- A plugin capability object: an identity plus, for each of the four
optional hooks, whether the object implements it (`plugin.hook?.()` fires
only when present). -/
structure Plugin where
  pid : Nat
  hasInit : Bool
  hasConnect : Bool
  hasDisconnect : Bool
  hasObserverCallback : Bool
deriving DecidableEq, Repr

/-- The mrujs configuration object (`obj.config`, mrujs.ts lines 66-71). -/
structure MrujsConfig where
  maskLinkMethods : Bool
  querySelectors : QuerySelectors
  mimeTypes : ObjStr
  plugins : List Plugin
deriving DecidableEq, Repr

/-- A caller-supplied `Partial<MrujsConfigInterface>`: each top-level key may
be absent.  `start` merges it over the current config with JS spread
(present keys override, absent keys keep the old value). -/
structure ConfigPatch where
  maskLinkMethods : Option Bool := none
  querySelectors : Option QuerySelectors := none
  mimeTypes : Option ObjStr := none
  plugins : Option (List Plugin) := none
deriving DecidableEq, Repr

/-- Shallow merge `\x7b ...this.config, ...config \x7d` (mrujs.ts line 114). -/
def mergeConfig (base : MrujsConfig) (c : ConfigPatch) : MrujsConfig :=
  { maskLinkMethods := c.maskLinkMethods.getD base.maskLinkMethods
    querySelectors := c.querySelectors.getD base.querySelectors
    mimeTypes := c.mimeTypes.getD base.mimeTypes
    plugins := c.plugins.getD base.plugins }

/-- Modelled from the spec: the eleven core-plugin factories imported by
`mrujs.ts` (AddedNodesObserver, RemoteWatcher, Csrf, ElementEnabler,
ClickHandler, DisabledElementChecker, Confirm, ElementDisabler, Method,
FormSubmitDispatcher, NavigationAdapter) are external collaborators whose
bodies are not in `src/`; each produces "a capability object with optional
`initialize`, `connect`, `disconnect`, `observerCallback` hooks".  This
record supplies the eleven constructed objects. -/
structure CoreFactories where
  addedNodesObserver : Plugin
  remoteWatcher : Plugin
  csrf : Plugin
  elementEnabler : Plugin
  clickHandler : Plugin
  disabledElementChecker : Plugin
  confirmObj : Plugin
  elementDisabler : Plugin
  method : Plugin
  formSubmitDispatcher : Plugin
  navigationAdapter : Plugin
deriving DecidableEq, Repr

/-- The `corePlugins` array in its fixed construction order
(mrujs.ts lines 44-56, "Order matters here!"). -/
def corePluginsList (f : CoreFactories) : List Plugin :=
  [f.addedNodesObserver, f.remoteWatcher, f.csrf, f.elementEnabler,
   f.clickHandler, f.disabledElementChecker, f.confirmObj,
   f.elementDisabler, f.method, f.formSubmitDispatcher, f.navigationAdapter]

/-- The observable state of the single mrujs instance.  `confirmCallbacks`
models `confirmClass.callbacks` (callbacks identified by `Nat` ids). -/
structure MrujsState where
  connected : Bool
  corePlugins : List Plugin
  plugins : List Plugin
  allPlugins : List Plugin
  config : MrujsConfig
  confirmCallbacks : List Nat
deriving DecidableEq, Repr

/-- The `Mrujs` constructor (mrujs.ts lines 28-104): wires the fixed core
list, defaults the extension list `obj.plugins ?? []`, concatenates, and
installs the default configuration built from the base selector and accept
header maps (external constants, passed as parameters). -/
def Mrujs (f : CoreFactories) (baseSelectors : QuerySelectors)
    (baseHeaders : ObjStr) (objPlugins : Option (List Plugin)) : MrujsState :=
  let core := corePluginsList f
  let plugins := objPlugins.getD []
  { connected := false
    corePlugins := core
    plugins := plugins
    allPlugins := core ++ plugins
    config :=
      { maskLinkMethods := true
        querySelectors := baseSelectors
        mimeTypes := baseHeaders
        plugins := plugins }
    confirmCallbacks := [] }

/-- One observed plugin-hook invocation. -/
inductive Ev where
  | init (pid : Nat)
  | conn (pid : Nat)
  | disc (pid : Nat)
deriving DecidableEq, Repr

/-- The `initialize` loop of `start` (mrujs.ts lines 118-121):
`plugin.initialize?.()` for each plugin in registry order. -/
def initPass : List Plugin → List Ev
  | [] => []
  | p :: rest => (if p.hasInit then [Ev.init p.pid] else []) ++ initPass rest

/-- The plugin loop of `connect` (mrujs.ts lines 145-148). -/
def connectPass : List Plugin → List Ev
  | [] => []
  | p :: rest => (if p.hasConnect then [Ev.conn p.pid] else []) ++ connectPass rest

/-- The plugin loop of `disconnect` (mrujs.ts lines 156-159). -/
def disconnectPass : List Plugin → List Ev
  | [] => []
  | p :: rest => (if p.hasDisconnect then [Ev.disc p.pid] else []) ++ disconnectPass rest

/-- `connect()` (mrujs.ts lines 137-151): the re-enable sweep and the
`pageshow` subscription are DOM-only; then one `connect` pass over
`allPlugins`, then `connected = true`. -/
def connect (s : MrujsState) : MrujsState × List Ev :=
  ({ s with connected := true }, connectPass s.allPlugins)

/-- `disconnect()` (mrujs.ts lines 153-162): unsubscribe (DOM-only), one
`disconnect` pass over `allPlugins`, then `connected = false`. -/
def disconnect (s : MrujsState) : MrujsState × List Ev :=
  ({ s with connected := false }, disconnectPass s.allPlugins)

/-- `stop()` (mrujs.ts lines 128-130): unconditionally calls `disconnect()`. -/
def stop (s : MrujsState) : MrujsState × List Ev :=
  disconnect s

/-- `restart()` (mrujs.ts lines 132-135): `disconnect()` then `connect()`,
with no check of `connected`. -/
def restart (s : MrujsState) : MrujsState × List Ev :=
  let r1 := disconnect s
  let r2 := connect r1.1
  (r2.1, r1.2 ++ r2.2)

/-- `start(config)` (mrujs.ts lines 106-126).  `window.mrujs = this` makes
the ambient instance this one, so the guard reads this state's `connected`
flag; if connected it returns the current instance untouched ("Dont start
twice!").  Otherwise it spread-merges the patch over the config, rebinds
`plugins` and `allPlugins`, runs one `initialize` pass, then `connect()`. -/
def start (c : ConfigPatch) (s : MrujsState) : MrujsState × List Ev :=
  if s.connected then (s, [])
  else
    let config := mergeConfig s.config c
    let plugins := config.plugins
    let allPlugins := s.corePlugins ++ plugins
    let s1 := { s with config := config, plugins := plugins, allPlugins := allPlugins }
    let evs := initPass s1.allPlugins
    let r := connect s1
    (r.1, evs ++ r.2)

/-- A lifecycle call, for reasoning about call sequences. -/
inductive Cmd where
  | start (c : ConfigPatch)
  | stop
  | restart
deriving DecidableEq, Repr

/-- Run one lifecycle call. -/
def runCmd : Cmd → MrujsState → MrujsState × List Ev
  | Cmd.start c, s => start c s
  | Cmd.stop, s => stop s
  | Cmd.restart, s => restart s

/-- Run a sequence of lifecycle calls, accumulating the hook trace. -/
def runCmds : List Cmd → MrujsState → MrujsState × List Ev
  | [], s => (s, [])
  | c :: cs, s =>
    let r1 := runCmd c s
    let r2 := runCmds cs r1.1
    (r2.1, r1.2 ++ r2.2)

/-- Number of occurrences of one event in a trace. -/
def countEv (e : Ev) (t : List Ev) : Nat :=
  (t.filter (fun x => decide (x = e))).length

/-- Whether an event is an `initialize` invocation. -/
def isInitEv : Ev → Bool
  | Ev.init _ => true
  | _ => false

/-- Whether a trace contains any `initialize` invocation. -/
def hasInitEv (t : List Ev) : Bool :=
  t.any isInitEv

/-- One DOM mutation record, as consumed by `addedNodesCallback`: its
`type` string, its `target` node and its `addedNodes` list. -/
structure MutationRecord where
  type : String
  target : DomNode
  addedNodes : List DomNode
deriving DecidableEq, Repr

/-- Default record for safe indexed access in specifications. -/
def noRecord : MutationRecord :=
  { type := "", target := 0, addedNodes := [] }

/-- The per-record node batch (mrujs.ts lines 170-176): the target alone
for an attribute record, else `Array.from(mutation.addedNodes)`. -/
def recordBatch (m : MutationRecord) : List DomNode :=
  if m.type = "attributes" then [m.target] else m.addedNodes

/-- The body of one deferred tick (mrujs.ts lines 179-184): deliver the
batch to `plugin.observerCallback?.` for each plugin in registry order. -/
def deferredTask (batch : List DomNode) : List Plugin → List (Nat × List DomNode)
  | [] => []
  | p :: rest =>
    (if p.hasObserverCallback then [(p.pid, batch)] else []) ++ deferredTask batch rest

/-- `addedNodesCallback` (mrujs.ts lines 168-186): for each mutation record,
compute its batch and schedule exactly one deferred task (`setTimeout 0`)
delivering that batch to every plugin.  The returned outer list is the
schedule, one task per record in record order. -/
def addedNodesCallback (plugins : List Plugin) (mutationList : List MutationRecord) :
    List (List (Nat × List DomNode)) :=
  mutationList.map (fun m => deferredTask (recordBatch m) plugins)

/-- One `\x7bshortcut, header\x7d` entry of `registerMimeTypes`. -/
structure CustomMimeType where
  shortcut : String
  header : String
deriving DecidableEq, Repr

/-- `registerMimeTypes` (mrujs.ts lines 208-222): build `customMimeTypes`
by `forEach` assignment, spread-merge it over `config.mimeTypes`, store and
return the full resulting map. -/
def registerMimeTypes (list : List CustomMimeType) (s : MrujsState) :
    MrujsState × ObjStr :=
  let custom := list.foldl (fun acc mt => objSet acc mt.shortcut mt.header) []
  let merged := spreadMerge s.config.mimeTypes custom
  ({ s with config := { s.config with mimeTypes := merged } }, merged)

/-- `appendToQuerySelector` (mrujs.ts lines 224-237): when `key` is one of
the map's keys, `+=` appends `, <selector>` and `, <exclude>` to whatever
the fields hold (JS coerces an absent field to the string `undefined`);
each argument is applied only when non-null; an unknown key does nothing. -/
def appendToQuerySelector (key : String) (selector exclude : Option String)
    (s : MrujsState) : MrujsState :=
  let qs := s.config.querySelectors
  if qsHasKey qs key then
    let qs1 := match selector with
      | some sel =>
        qsModify qs key (fun e => { e with selector := some (jsCoerce e.selector ++ ", " ++ sel) })
      | none => qs
    let qs2 := match exclude with
      | some ex =>
        qsModify qs1 key (fun e => { e with exclude := some (jsCoerce e.exclude ++ ", " ++ ex) })
      | none => qs1
    { s with config := { s.config with querySelectors := qs2 } }
  else s

/-- `registerConfirm` (mrujs.ts lines 239-253): appends the derived anchor
selector under the key `buttonClickSelector` and the derived button
selector under the key `linkClickSelector` (exactly as the source lines
241-242 write it), then pushes the callback onto the confirm-callback
sequence. -/
def registerConfirm (attr : String) (callback : Nat) (s : MrujsState) : MrujsState :=
  let s1 := appendToQuerySelector "buttonClickSelector"
    (some ("a[" ++ attr ++ "]")) none s
  let s2 := appendToQuerySelector "linkClickSelector"
    (some ("button[" ++ attr ++ "]:not([form])")) none s1
  { s2 with confirmCallbacks := s2.confirmCallbacks ++ [callback] }

/-- A hookless stub plugin, for concrete instantiations. -/
def noopPlugin (n : Nat) : Plugin :=
  { pid := n, hasInit := false, hasConnect := false
    hasDisconnect := false, hasObserverCallback := false }

/-- Concrete core factories: eleven hookless stubs. -/
def stubCore : CoreFactories :=
  { addedNodesObserver := noopPlugin 0, remoteWatcher := noopPlugin 1
    csrf := noopPlugin 2, elementEnabler := noopPlugin 3
    clickHandler := noopPlugin 4, disabledElementChecker := noopPlugin 5
    confirmObj := noopPlugin 6, elementDisabler := noopPlugin 7
    method := noopPlugin 8, formSubmitDispatcher := noopPlugin 9
    navigationAdapter := noopPlugin 10 }

/-- A concrete extension plugin implementing all four hooks. -/
def extPlugin : Plugin :=
  { pid := 100, hasInit := true, hasConnect := true
    hasDisconnect := true, hasObserverCallback := true }

/-- The empty config patch. -/
def emptyPatch : ConfigPatch := {}

/-- A freshly constructed instance carrying `extPlugin` as its one
extension plugin. -/
def s0 : MrujsState := Mrujs stubCore [] [] (some [extPlugin])

/-- The instance `s0` after a first successful `start`. -/
def s1c : MrujsState := (start emptyPatch s0).1

/-- A config patch supplying `extPlugin` as the extension list. -/
def extPatch : ConfigPatch := { plugins := some [extPlugin] }

/-- A concrete plugin implementing only `observerCallback`. -/
def obsPlugin : Plugin :=
  { pid := 1, hasInit := false, hasConnect := false
    hasDisconnect := false, hasObserverCallback := true }

/-- Concrete plugin registry for dispatch examples. -/
def pluginsW : List Plugin := [obsPlugin, extPlugin]

/-- Concrete mutation records: one attribute change, one insertion. -/
def msW : List MutationRecord :=
  [{ type := "attributes", target := 5, addedNodes := [8, 9] },
   { type := "childList", target := 6, addedNodes := [7, 8] }]

/-- An instance whose selector map has a `formEnableSelector` entry with
both fields present. -/
def sQS : MrujsState :=
  Mrujs stubCore
    [("formEnableSelector", { selector := some "input", exclude := some "x" })]
    [] none

/-- An instance whose selector map has entries with a missing `exclude`
respectively a missing `selector` field. -/
def sU : MrujsState :=
  Mrujs stubCore
    [("inputChangeSelector", { selector := some "sel", exclude := none }),
     ("formSubmitSelector", { selector := none, exclude := some "ex" })]
    [] none

/-- An instance with one pre-registered mime type. -/
def sMime : MrujsState := Mrujs stubCore [] [("xml", "application/xml")] none

/-- An instance whose selector map has the two click-selector entries used
by `registerConfirm`. -/
def sConfirm : MrujsState :=
  Mrujs stubCore
    [("linkClickSelector", { selector := some "L", exclude := none }),
     ("buttonClickSelector", { selector := some "B", exclude := none })]
    [] none

/-! Helper lemmas. -/

theorem hasInitEv_append (a b : List Ev) :
    hasInitEv (a ++ b) = (hasInitEv a || hasInitEv b) := by
  simp [hasInitEv, List.any_append]

theorem hasInitEv_connectPass (ps : List Plugin) :
    hasInitEv (connectPass ps) = false := by
  induction ps with
  | nil => rfl
  | cons p rest ih =>
    rw [show connectPass (p :: rest) =
          (if p.hasConnect then [Ev.conn p.pid] else []) ++ connectPass rest from rfl,
        hasInitEv_append, ih]
    cases p.hasConnect <;> rfl

theorem hasInitEv_disconnectPass (ps : List Plugin) :
    hasInitEv (disconnectPass ps) = false := by
  induction ps with
  | nil => rfl
  | cons p rest ih =>
    rw [show disconnectPass (p :: rest) =
          (if p.hasDisconnect then [Ev.disc p.pid] else []) ++ disconnectPass rest from rfl,
        hasInitEv_append, ih]
    cases p.hasDisconnect <;> rfl

theorem qsHasKey_of_get {qs : QuerySelectors} {k : String} {e : SelectorEntry}
    (h : qsGet qs k = some e) : qsHasKey qs k = true := by
  induction qs with
  | nil => simp [qsGet] at h
  | cons kv rest ih =>
    obtain ⟨k0, v0⟩ := kv
    by_cases hk : k0 = k
    · simp [qsHasKey, hk]
    · simp only [qsGet, if_neg hk] at h
      have := ih h
      simp [qsHasKey, List.contains_cons] at this ⊢
      exact Or.inr this

theorem qsHasKey_of_get_none {qs : QuerySelectors} {k : String}
    (h : qsGet qs k = none) : qsHasKey qs k = false := by
  induction qs with
  | nil => rfl
  | cons kv rest ih =>
    obtain ⟨k0, v0⟩ := kv
    by_cases hk : k0 = k
    · simp [qsGet, hk] at h
    · simp only [qsGet, if_neg hk] at h
      have := ih h
      simp [qsHasKey, List.contains_cons] at this ⊢
      exact ⟨fun he => hk he.symm, this⟩

theorem qsGet_modify_self {qs : QuerySelectors} {k : String} {e : SelectorEntry}
    (f : SelectorEntry → SelectorEntry) (h : qsGet qs k = some e) :
    qsGet (qsModify qs k f) k = some (f e) := by
  induction qs with
  | nil => simp [qsGet] at h
  | cons kv rest ih =>
    obtain ⟨k0, v0⟩ := kv
    by_cases hk : k0 = k
    · simp only [qsGet, if_pos hk] at h
      cases h
      simp [qsModify, qsGet, hk]
    · simp only [qsGet, if_neg hk] at h
      simp [qsModify, qsGet, hk, ih h]

theorem objGet_objSet_self (l : ObjStr) (k v : String) :
    objGet (objSet l k v) k = some v := by
  induction l with
  | nil => simp [objSet, objGet]
  | cons kv rest ih =>
    obtain ⟨k0, v0⟩ := kv
    by_cases hk : k0 = k
    · simp [objSet, objGet, hk]
    · simp [objSet, objGet, hk, ih]

theorem objGet_objSet_ne (l : ObjStr) (k v k' : String) (h : k' ≠ k) :
    objGet (objSet l k v) k' = objGet l k' := by
  have hk' : k ≠ k' := Ne.symm h
  induction l with
  | nil => simp [objSet, objGet, hk']
  | cons kv rest ih =>
    obtain ⟨k0, v0⟩ := kv
    by_cases hk : k0 = k
    · have h0 : ¬ (k0 = k') := by rw [hk]; exact hk'
      simp [objSet, objGet, hk, h0, hk']
    · simp [objSet, objGet, hk, ih]

theorem deferredTask_eq (b : List DomNode) (ps : List Plugin) :
    deferredTask b ps =
      (ps.filter (fun p => p.hasObserverCallback)).map (fun p => (p.pid, b)) := by
  induction ps with
  | nil => rfl
  | cons p rest ih =>
    cases hp : p.hasObserverCallback <;>
      simp [deferredTask, hp, ih, List.filter_cons]

theorem schedule_getD (plugins : List Plugin) (ms : List MutationRecord) (i : Nat)
    (h : i < ms.length) :
    (addedNodesCallback plugins ms).getD i [] =
      deferredTask (recordBatch (ms.getD i noRecord)) plugins := by
  induction ms generalizing i with
  | nil => simp at h
  | cons m rest ih =>
    cases i with
    | zero => simp [addedNodesCallback, List.getD]
    | succ j =>
      have hj : j < rest.length := Nat.lt_of_succ_lt_succ h
      simpa [addedNodesCallback, List.getD] using ih j hj

/-! Claim theorems. -/

/-- C1 counterexample: the claim says no sequence of start()/stop()/restart()
calls after the first start() ever invokes initialize() on a plugin a second
time; but on the concrete instance `s0` the sequence start();stop();start()
invokes the extension plugin's initialize hook twice, because `start` only
guards on the `connected` flag, which `stop` has reset. -/
theorem c1_counterexample :
    countEv (Ev.init 100)
      (runCmds [Cmd.start emptyPatch, Cmd.stop, Cmd.start emptyPatch] s0).2 = 2 := by
  decide

/-- C1 (amended): initialize() is invoked at most once per plugin as long as
no stop() intervenes: after a start() has left the instance connected, any
further sequence of start()/restart() calls (no stop()) keeps the instance
connected and never invokes initialize() on any plugin again; only stop()
re-enables initialization. -/
theorem c1_no_reinit_without_stop :
    ∀ (cmds : List Cmd) (s : MrujsState), Cmd.stop ∉ cmds → s.connected = true →
      (runCmds cmds s).1.connected = true ∧ hasInitEv (runCmds cmds s).2 = false := by
  intro cmds
  induction cmds with
  | nil => intro s _ hc; exact ⟨hc, rfl⟩
  | cons c cs ih =>
    intro s hns hc
    have hcs : Cmd.stop ∉ cs := fun hm => hns (List.mem_cons_of_mem c hm)
    cases c with
    | start cp =>
      have hrun : runCmds (Cmd.start cp :: cs) s =
          ((runCmds cs s).1, [] ++ (runCmds cs s).2) := by
        simp [runCmds, runCmd, start, hc]
      rw [hrun]
      simpa using ih s hcs hc
    | stop =>
      exact absurd (List.mem_cons_self _ _) hns
    | restart =>
      have hconn : (restart s).1.connected = true := rfl
      obtain ⟨ha, hb⟩ := ih (restart s).1 hcs hconn
      refine ⟨ha, ?_⟩
      show hasInitEv ((restart s).2 ++ (runCmds cs (restart s).1).2) = false
      rw [hasInitEv_append, hb]
      have hr : hasInitEv (restart s).2 = false := by
        show hasInitEv (disconnectPass s.allPlugins ++ connectPass s.allPlugins) = false
        rw [hasInitEv_append, hasInitEv_disconnectPass, hasInitEv_connectPass]
        rfl
      rw [hr]
      rfl

/-- C1 witness: on the connected concrete instance `s1c`, the stop-free
sequence restart();start() keeps it connected and fires no initialize
hook. -/
theorem c1_no_reinit_without_stop_witness :
    Cmd.stop ∉ [Cmd.restart, Cmd.start emptyPatch] ∧ s1c.connected = true ∧
    ((runCmds [Cmd.restart, Cmd.start emptyPatch] s1c).1.connected = true ∧
     hasInitEv (runCmds [Cmd.restart, Cmd.start emptyPatch] s1c).2 = false) :=
  ⟨by decide, by decide,
    c1_no_reinit_without_stop [Cmd.restart, Cmd.start emptyPatch] s1c
      (by decide) (by decide)⟩

/-- C2 counterexample: the claim says stop();stop() performs exactly one
disconnect pass over the plugins; on the connected concrete instance `s1c`
one disconnect pass invokes plugin 100's disconnect hook once, yet
stop();stop() invokes it twice, because `stop` calls `disconnect`
unconditionally.  (The `connected` flag does stay false.) -/
theorem c2_counterexample :
    s1c.connected = true ∧
    countEv (Ev.disc 100) (disconnectPass s1c.allPlugins) = 1 ∧
    (runCmds [Cmd.stop, Cmd.stop] s1c).1.connected = false ∧
    countEv (Ev.disc 100) (runCmds [Cmd.stop, Cmd.stop] s1c).2 = 2 := by
  decide

/-- C2 (amended): calling stop() when the system is already disconnected
keeps the connected flag false, but it is not a no-op at the hook level:
every stop() call performs one full disconnect pass over the plugins, so
stop();stop() performs two identical disconnect passes. -/
theorem c2_second_stop_full_pass :
    ∀ s : MrujsState,
      (stop (stop s).1).1.connected = false ∧
      (stop s).2 = disconnectPass s.allPlugins ∧
      (stop (stop s).1).2 = disconnectPass s.allPlugins :=
  fun _ => ⟨rfl, rfl, rfl⟩

/-- C3: calling start() while connected is a silent no-op: the call returns
the current instance with its state (including the connected flag and the
plugin registry) unchanged and performs no hook invocation at all — in
particular no initialize() runs. -/
theorem c3_second_start_noop :
    ∀ (s : MrujsState) (c : ConfigPatch), s.connected = true →
      start c s = (s, []) ∧ (start c s).1.connected = true := by
  intro s c h
  have h1 : start c s = (s, []) := by simp [start, h]
  exact ⟨h1, by rw [h1]; exact h⟩

/-- C3 witness: a second start() on the started concrete instance `s1c`. -/
theorem c3_second_start_noop_witness :
    s1c.connected = true ∧
    (start emptyPatch s1c = (s1c, []) ∧ (start emptyPatch s1c).1.connected = true) :=
  ⟨by decide, c3_second_start_noop s1c emptyPatch (by decide)⟩

/-- C4: the constructor's core list is the fixed 11-element list in its
construction order, and any start() that proceeds (called while
disconnected) with a patch supplying extension plugins `ps` leaves
`allPlugins` equal to the core list concatenated with `ps`, with no
deduplication (the equation holds for every `ps`, duplicates included). -/
theorem c4_allPlugins_concat :
    ∀ (f : CoreFactories) (bs : QuerySelectors) (bh : ObjStr)
      (op : Option (List Plugin)) (s : MrujsState) (c : ConfigPatch)
      (ps : List Plugin), s.connected = false → c.plugins = some ps →
      (Mrujs f bs bh op).corePlugins = corePluginsList f ∧
      (corePluginsList f).length = 11 ∧
      (start c s).1.allPlugins = s.corePlugins ++ ps := by
  intro f bs bh op s c ps hc hp
  refine ⟨rfl, rfl, ?_⟩
  simp [start, hc, connect, mergeConfig, hp]

/-- C4 witness: starting a freshly constructed instance with a patch
supplying one extension plugin. -/
theorem c4_allPlugins_concat_witness :
    (Mrujs stubCore [] [] none).connected = false ∧
    extPatch.plugins = some [extPlugin] ∧
    ((Mrujs stubCore [] [] none).corePlugins = corePluginsList stubCore ∧
     (corePluginsList stubCore).length = 11 ∧
     (start extPatch (Mrujs stubCore [] [] none)).1.allPlugins =
       (Mrujs stubCore [] [] none).corePlugins ++ [extPlugin]) :=
  ⟨by decide, by decide,
    c4_allPlugins_concat stubCore [] [] none (Mrujs stubCore [] [] none)
      extPatch [extPlugin] (by decide) (by decide)⟩

/-- C5: restart() from any state (connected or not) ends with the connected
flag true, and its hook trace is exactly one disconnect pass over every
registered plugin followed by exactly one connect pass over every
registered plugin. -/
theorem c5_restart_always_connects :
    ∀ s : MrujsState,
      (restart s).1.connected = true ∧
      (restart s).2 = disconnectPass s.allPlugins ++ connectPass s.allPlugins :=
  fun _ => ⟨rfl, rfl⟩

/-- C6: the dispatch schedule produced for a mutation list has exactly one
deferred task per record, in record order; the task for record i delivers,
to every plugin implementing observerCallback and in registry order, the
batch consisting of exactly the record's target when it is an attribute
change and exactly the record's added-node list otherwise. -/
theorem c6_dispatch_batches :
    ∀ (plugins : List Plugin) (ms : List MutationRecord) (i : Nat),
      i < ms.length →
      (addedNodesCallback plugins ms).length = ms.length ∧
      (addedNodesCallback plugins ms).getD i [] =
        (plugins.filter (fun p => p.hasObserverCallback)).map
          (fun p => (p.pid,
            if (ms.getD i noRecord).type = "attributes"
            then [(ms.getD i noRecord).target]
            else (ms.getD i noRecord).addedNodes)) := by
  intro plugins ms i h
  refine ⟨by simp [addedNodesCallback], ?_⟩
  rw [schedule_getD plugins ms i h, deferredTask_eq]
  rfl

/-- C6 witness: the concrete registry `pluginsW` and records `msW` (an
attribute record then an insertion record), at record index 0. -/
theorem c6_dispatch_batches_witness :
    0 < msW.length ∧
    ((addedNodesCallback pluginsW msW).length = msW.length ∧
     (addedNodesCallback pluginsW msW).getD 0 [] =
       (pluginsW.filter (fun p => p.hasObserverCallback)).map
         (fun p => (p.pid,
           if (msW.getD 0 noRecord).type = "attributes"
           then [(msW.getD 0 noRecord).target]
           else (msW.getD 0 noRecord).addedNodes))) :=
  ⟨by decide, c6_dispatch_batches pluginsW msW 0 (by decide)⟩

/-- C7: when the key is present with both fields holding strings,
appendToQuerySelector appends a comma-space plus the given selector to the
entry's selector string and a comma-space plus the given exclude to its
exclude string (so repeated calls keep appending, with no deduplication);
when the key is absent the whole state is returned unchanged and, the
embedding being a total function, nothing is raised. -/
theorem c7_appendToQuerySelector_spec :
    ∀ (s : MrujsState) (key sel ex selStr exStr : String),
      (qsGet s.config.querySelectors key =
          some { selector := some selStr, exclude := some exStr } →
        qsGet (appendToQuerySelector key (some sel) (some ex) s).config.querySelectors key =
          some { selector := some (selStr ++ ", " ++ sel)
                 exclude := some (exStr ++ ", " ++ ex) }) ∧
      (∀ (selo exo : Option String), qsGet s.config.querySelectors key = none →
        appendToQuerySelector key selo exo s = s) := by
  intro s key sel ex selStr exStr
  constructor
  · intro h
    have hk := qsHasKey_of_get h
    have h1 := qsGet_modify_self
      (fun e => { e with selector := some (jsCoerce e.selector ++ ", " ++ sel) }) h
    have h2 := qsGet_modify_self
      (fun e => { e with exclude := some (jsCoerce e.exclude ++ ", " ++ ex) }) h1
    simp only [appendToQuerySelector, hk, if_true]
    simpa [jsCoerce] using h2
  · intro selo exo h
    have hk := qsHasKey_of_get_none h
    simp [appendToQuerySelector, hk]

/-- C7 witness: the concrete instance `sQS`, whose formEnableSelector entry
holds selector "input" and exclude "x". -/
theorem c7_appendToQuerySelector_spec_witness :
    qsGet sQS.config.querySelectors "formEnableSelector" =
      some { selector := some "input", exclude := some "x" } ∧
    qsGet (appendToQuerySelector "formEnableSelector" (some "y") (some "z")
        sQS).config.querySelectors "formEnableSelector" =
      some { selector := some ("input" ++ ", " ++ "y")
             exclude := some ("x" ++ ", " ++ "z") } :=
  ⟨by decide,
    (c7_appendToQuerySelector_spec sQS "formEnableSelector" "y" "z" "input" "x").1
      (by decide)⟩

/-- C8: registerMimeTypes returns exactly the map it stores as the new
config mime map; a later registration for the same shortcut overrides an
earlier one (last-write-wins); and a registration leaves every other key's
entry unchanged (merge, not replace). -/
theorem c8_registerMimeTypes_spec :
    ∀ (s : MrujsState) (list : List CustomMimeType) (k h h' k' : String),
      k' ≠ k →
      (registerMimeTypes list s).2 = (registerMimeTypes list s).1.config.mimeTypes ∧
      objGet (registerMimeTypes [{ shortcut := k, header := h' }]
        (registerMimeTypes [{ shortcut := k, header := h }] s).1).2 k = some h' ∧
      objGet (registerMimeTypes [{ shortcut := k, header := h }] s).2 k' =
        objGet s.config.mimeTypes k' := by
  intro s list k h h' k' hne
  refine ⟨rfl, ?_, ?_⟩
  · show objGet (spreadMerge (spreadMerge s.config.mimeTypes
      (objSet [] k h)) (objSet [] k h')) k = some h'
    simp only [objSet, spreadMerge, List.foldl]
    exact objGet_objSet_self _ k h'
  · show objGet (spreadMerge s.config.mimeTypes (objSet [] k h)) k' =
      objGet s.config.mimeTypes k'
    simp only [objSet, spreadMerge, List.foldl]
    exact objGet_objSet_ne _ k h k' hne

/-- C8 witness: the concrete instance `sMime`, registering a json header
twice and reading back both the overridden json entry and the untouched
xml entry. -/
theorem c8_registerMimeTypes_spec_witness :
    ("xml" : String) ≠ "json" ∧
    ((registerMimeTypes [{ shortcut := "json", header := "application/json" }] sMime).2 =
       (registerMimeTypes [{ shortcut := "json", header := "application/json" }]
         sMime).1.config.mimeTypes ∧
     objGet (registerMimeTypes [{ shortcut := "json", header := "application/vnd.api+json" }]
       (registerMimeTypes [{ shortcut := "json", header := "application/json" }]
         sMime).1).2 "json" = some "application/vnd.api+json" ∧
     objGet (registerMimeTypes [{ shortcut := "json", header := "application/json" }]
       sMime).2 "xml" = objGet sMime.config.mimeTypes "xml") :=
  ⟨by decide,
    c8_registerMimeTypes_spec sMime
      [{ shortcut := "json", header := "application/json" }]
      "json" "application/json" "application/vnd.api+json" "xml" (by decide)⟩

/-- C9: evaluating registerConfirm on the concrete instance `sConfirm`
shows where the two derived selectors actually land: the anchor selector
`a[data-confirm]` is appended to the buttonClickSelector entry and the
button selector `button[data-confirm]:not([form])` to the
linkClickSelector entry — the reverse of the claimed (and intended,
per the entry names) destinations — while the callback is appended to the
confirm-callback sequence as claimed. -/
theorem c9_registerConfirm_eval :
    qsGet (registerConfirm "data-confirm" 7 sConfirm).config.querySelectors
        "buttonClickSelector" =
      some { selector := some "B, a[data-confirm]", exclude := none } ∧
    qsGet (registerConfirm "data-confirm" 7 sConfirm).config.querySelectors
        "linkClickSelector" =
      some { selector := some "L, button[data-confirm]:not([form])", exclude := none } ∧
    (registerConfirm "data-confirm" 7 sConfirm).confirmCallbacks = [7] := by
  decide

/-- C10: when the key is present but the addressed field is absent
(undefined), the JS `+=` coerces undefined to the string "undefined", so
the new exclude is "undefined, " followed by the given exclude (and the
other field is left as it was); symmetrically for a missing selector. -/
theorem c10_js_undefined_concat :
    ∀ (s : MrujsState) (key sel ex : String) (e : SelectorEntry),
      (qsGet s.config.querySelectors key = some e → e.exclude = none →
        qsGet (appendToQuerySelector key none (some ex) s).config.querySelectors key =
          some { e with exclude := some ("undefined, " ++ ex) }) ∧
      (qsGet s.config.querySelectors key = some e → e.selector = none →
        qsGet (appendToQuerySelector key (some sel) none s).config.querySelectors key =
          some { e with selector := some ("undefined, " ++ sel) }) := by
  intro s key sel ex e
  have hlit : ∀ t : String, ("undefined" ++ ", ") ++ t = "undefined, " ++ t := by
    intro t
    rw [show ("undefined" : String) ++ ", " = "undefined, " from rfl]
  constructor
  · intro h hx
    have hk := qsHasKey_of_get h
    have h2 := qsGet_modify_self
      (fun e => { e with exclude := some (jsCoerce e.exclude ++ ", " ++ ex) }) h
    simp only [appendToQuerySelector, hk, if_true]
    rw [h2]
    simp [hx, jsCoerce, hlit]
  · intro h hx
    have hk := qsHasKey_of_get h
    have h2 := qsGet_modify_self
      (fun e => { e with selector := some (jsCoerce e.selector ++ ", " ++ sel) }) h
    simp only [appendToQuerySelector, hk, if_true]
    rw [h2]
    simp [hx, jsCoerce, hlit]

/-- C10 witness: the concrete instance `sU`, whose inputChangeSelector
entry has no exclude field; appending an exclude "x" there yields the
string-concatenated "undefined, x". -/
theorem c10_js_undefined_concat_witness :
    qsGet sU.config.querySelectors "inputChangeSelector" =
      some { selector := some "sel", exclude := none } ∧
    ({ selector := some "sel", exclude := none } : SelectorEntry).exclude = none ∧
    qsGet (appendToQuerySelector "inputChangeSelector" none (some "x")
        sU).config.querySelectors "inputChangeSelector" =
      some { selector := some "sel", exclude := some ("undefined, " ++ "x") } :=
  ⟨by decide, by decide,
    (c10_js_undefined_concat sU "inputChangeSelector" "s" "x"
      { selector := some "sel", exclude := none }).1 (by decide) (by decide)⟩
